import Mathlib

/-!
Verification of the non-blocking threshold-alert controller pattern of the
Book-example-code repository (ESP32 Arduino sketches).

The embedding models the DHT11 temperature/humidity sketches:
  * Chapter_11/main.cpp  - classify + indicate + blink + failure escalator
  * Chapter_14/main.cpp  - same core plus WiFi / AWS MQTT connect and publish
  * Chapter_08/Temp_Humidity_DH11/main.cpp - updateIndicatorStatus variant

Sensor floats are modelled as `Option Rat`: `none` stands for NaN (the DHT
library returns NaN on a failed read), `some v` for an ordinary value.
Classification only compares non-NaN values, for which rational comparison
agrees with IEEE float comparison, so the embedding is faithful there.
`millis()` timestamps are unsigned 32-bit; the elapsed-time computation
`now - last` is modelled by `wrapSub`, the exact 32-bit wrapping
subtraction on `Nat`.
-/

/-- A DHT11 float result: `none` models NaN (failed read). -/
abbrev F : Type := Option ℚ

/-- The condition tags of the spec: {Normal, BelowRange, AboveRange, SensorError}. -/
inductive ConditionTag : Type
  | Normal
  | BelowRange
  | AboveRange
  | SensorError
  deriving DecidableEq, Repr

/-- The fixed (low, high) bounds per monitored quantity.  Configured at
startup from the `constexpr float` constants of each sketch. -/
structure ThresholdSet : Type where
  tempMin : ℚ
  tempMax : ℚ
  humMin : ℚ
  humMax : ℚ
  deriving DecidableEq, Repr

/-- A two-quantity Reading as produced each sample tick: humidity and
temperature in Celsius, each possibly NaN. -/
structure Reading : Type where
  humidity : F
  temperatureC : F
  deriving DecidableEq, Repr

/-- Validity flag of a Reading: the underlying reads returned actual numbers.
Chapter_11/main.cpp line 155 tests `isnan(humidity) || isnan(temperatureC)`. -/
def Reading.valid (r : Reading) : Bool :=
  r.humidity.isSome && r.temperatureC.isSome

/-- ThresholdClassifier, transcribed from Chapter_11/main.cpp
checkSensorReadings lines 155-185 (the same if-chain appears in
Chapter_14/main.cpp lines 223-254 and in
Chapter_08/Temperature and humidity measurement/src/main.cpp lines 105-117,
each with its own constants):
NaN check first, then the inclusive in-range test, then the strict
below-range test, else above range. -/
def classify (ths : ThresholdSet) (r : Reading) : ConditionTag :=
  match r.humidity, r.temperatureC with
  | some hv, some tv =>
    if ths.tempMin ≤ tv ∧ tv ≤ ths.tempMax ∧ ths.humMin ≤ hv ∧ hv ≤ ths.humMax then
      ConditionTag.Normal
    else if tv < ths.tempMin ∨ hv < ths.humMin then
      ConditionTag.BelowRange
    else
      ConditionTag.AboveRange
  | _, _ => ConditionTag.SensorError

/-- TEMP_MIN/TEMP_MAX/HUM_MIN/HUM_MAX of Chapter_11/main.cpp lines 70-73
(Chapter_14/main.cpp lines 87-90 use the same values). -/
def chapter11Thresholds : ThresholdSet :=
  { tempMin := 10, tempMax := 25, humMin := 10, humMax := 80 }

/-- Bounds of Chapter_08/Temperature and humidity measurement/src/main.cpp
lines 108-110: temperature in [15, 25], humidity in [10, 60]. -/
def tempHumMeasurementThresholds : ThresholdSet :=
  { tempMin := 15, tempMax := 25, humMin := 10, humMax := 60 }

/-- Exact unsigned 32-bit subtraction on Nat: the value of the C++
expression `a - b` at `unsigned long` (32-bit) type. -/
def wrapSub (a b : Nat) : Nat :=
  (a + (2 ^ 32 - b % 2 ^ 32)) % 2 ^ 32

namespace Chapter11

/-- DATA_LED pin constants of Chapter_11/main.cpp lines 47-49. -/
def DATA_LED_ABOVE_RED : Int := 3

def DATA_LED_NORMAL_GREEN : Int := 10

def DATA_LED_BELOW_BLUE : Int := 6

/-- SYS_LED_ON (PWM duty 255), Chapter_11/main.cpp line 58. -/
def SYS_LED_ON : Nat := 255

def SYS_LED_OFF : Nat := 0

/-- BUZZER_VOLUME_HALF (PWM duty 512), Chapter_11/main.cpp line 66. -/
def BUZZER_VOLUME_HALF : Nat := 512

def BUZZER_OFF : Nat := 0

/-- blinkInterval = 100 ms, Chapter_11/main.cpp line 85
(DATA_LED_BLINK_INTERVAL_MS = 100 in Chapter_14/main.cpp line 112). -/
def blinkInterval : Nat := 100

/-- The mutable globals of Chapter_11/main.cpp that the controller touches,
plus the physical outputs it drives: `red`/`green`/`blue` are the RGB data
pin levels written by updateLEDs, `sysLedD5` and `buzzer` the PWM duties of
LEDC channels 1 and 2.  `ledState` is the static local of ledBlinking. -/
structure DeviceState : Type where
  shouldBlink : Bool
  lastBlinkTime : Nat
  ledState : Bool
  blinkingLED : Int
  sensorErrorCount : Nat
  red : Bool
  green : Bool
  blue : Bool
  sysLedD5 : Nat
  buzzer : Nat
  deriving DecidableEq, Repr

/-- State after the global initializers and setup(): blinking disabled,
blink target -1, counters zero, all outputs low. -/
def initialState : DeviceState :=
  { shouldBlink := false
    lastBlinkTime := 0
    ledState := false
    blinkingLED := -1
    sensorErrorCount := 0
    red := false
    green := false
    blue := false
    sysLedD5 := SYS_LED_OFF
    buzzer := BUZZER_OFF }

/-- updateLEDs, Chapter_11/main.cpp lines 188-193: digitalWrite of the three
RGB data pins. -/
def updateLEDs (r g b : Bool) (s : DeviceState) : DeviceState :=
  { s with red := r, green := g, blue := b }

/-- indicateNormalCondition, Chapter_11/main.cpp lines 195-202: stop
blinking, green on, LED D5 off, buzzer muted. -/
def indicateNormalCondition (s : DeviceState) : DeviceState :=
  let s1 := { s with shouldBlink := false }
  let s2 := updateLEDs false true false s1
  { s2 with sysLedD5 := SYS_LED_OFF, buzzer := BUZZER_OFF }

/-- indicateConditionBelowRange, Chapter_11/main.cpp lines 204-210: enable
blinking, LED D5 off, blink target := blue pin.  No RGB data pin and no
buzzer write occurs in the source. -/
def indicateConditionBelowRange (s : DeviceState) : DeviceState :=
  { s with shouldBlink := true, sysLedD5 := SYS_LED_OFF,
           blinkingLED := DATA_LED_BELOW_BLUE }

/-- indicateConditionAboveRange, Chapter_11/main.cpp lines 212-218: enable
blinking, LED D5 off, blink target := red pin.  No RGB data pin and no
buzzer write occurs in the source. -/
def indicateConditionAboveRange (s : DeviceState) : DeviceState :=
  { s with shouldBlink := true, sysLedD5 := SYS_LED_OFF,
           blinkingLED := DATA_LED_ABOVE_RED }

/-- indicateSensorError, Chapter_11/main.cpp lines 220-236.  The counter is
incremented first; if it reached 3 the device restarts (ESP.restart never
returns, so the remaining writes do not execute) - the Bool result records
that the restart action fired.  Otherwise blinking stops, all RGB data pins
go low, LED D5 turns solid on and the buzzer sounds at half volume. -/
def indicateSensorError (s : DeviceState) : DeviceState × Bool :=
  let c := s.sensorErrorCount + 1
  if 3 ≤ c then
    ({ s with sensorErrorCount := c }, true)
  else
    ({ s with sensorErrorCount := c, shouldBlink := false,
              red := false, green := false, blue := false,
              sysLedD5 := SYS_LED_ON, buzzer := BUZZER_VOLUME_HALF }, false)

/-- checkSensorReadings, Chapter_11/main.cpp lines 147-186: on an invalid
reading, indicateSensorError; on a valid reading, reset the consecutive
failure counter to zero (line 162) and dispatch on the classification
if-chain of lines 174-185. -/
def checkSensorReadings (ths : ThresholdSet) (r : Reading) (s : DeviceState) :
    DeviceState × Bool :=
  match r.humidity, r.temperatureC with
  | some hv, some tv =>
    let s0 := { s with sensorErrorCount := 0 }
    if ths.tempMin ≤ tv ∧ tv ≤ ths.tempMax ∧ ths.humMin ≤ hv ∧ hv ≤ ths.humMax then
      (indicateNormalCondition s0, false)
    else if tv < ths.tempMin ∨ hv < ths.humMin then
      (indicateConditionBelowRange s0, false)
    else
      (indicateConditionAboveRange s0, false)
  | _, _ => indicateSensorError s

/-- A sample tick result: a valid in-range reading (humidity 40, 18 C) or a
failed read (both values NaN). -/
def sampleOf (valid : Bool) : Reading :=
  if valid then { humidity := some 40, temperatureC := some 18 }
  else { humidity := none, temperatureC := none }

/-- Run checkSensorReadings over a list of sample results.  Returns
`Sum.inl s` with the final state when no restart fired, and `Sum.inr k`
when the restart action fired while processing the k-th result (1-based);
the device reboots there, so no later result is processed. -/
def runSamples11 : DeviceState → List Bool → DeviceState ⊕ Nat
  | s, [] => Sum.inl s
  | s, v :: rest =>
    let r := checkSensorReadings chapter11Thresholds (sampleOf v) s
    if r.2 then Sum.inr 1
    else
      match runSamples11 r.1 rest with
      | Sum.inl s2 => Sum.inl s2
      | Sum.inr k => Sum.inr (k + 1)

/-- ledBlinking, Chapter_11/main.cpp lines 238-263 (identical to
Chapter_14/main.cpp lines 308-333), written field-wise: exit unless
blinking is enabled; if at least blinkInterval ms elapsed since the last
toggle (32-bit wrapping subtraction of unsigned longs), record the toggle
time, flip the phase, rewrite the RGB pins for the blink target (blue
checked first, then red, any other target writes no pin), and drive the
buzzer in lockstep with the new phase. -/
def ledBlinking (now : Nat) (s : DeviceState) : DeviceState :=
  if s.shouldBlink = false then s
  else if blinkInterval ≤ wrapSub now s.lastBlinkTime then
    let led := !s.ledState
    { s with
      lastBlinkTime := now
      ledState := led
      red := if s.blinkingLED = DATA_LED_BELOW_BLUE then false
             else if s.blinkingLED = DATA_LED_ABOVE_RED then led else s.red
      green := if s.blinkingLED = DATA_LED_BELOW_BLUE then false
               else if s.blinkingLED = DATA_LED_ABOVE_RED then false else s.green
      blue := if s.blinkingLED = DATA_LED_BELOW_BLUE then led
              else if s.blinkingLED = DATA_LED_ABOVE_RED then false else s.blue
      buzzer := if led then BUZZER_VOLUME_HALF else BUZZER_OFF }
  else s

/-- Whether a ledBlinking call at time `now` performs a blink toggle. -/
def togglesAt (now : Nat) (s : DeviceState) : Bool :=
  s.shouldBlink && decide (blinkInterval ≤ wrapSub now s.lastBlinkTime)

/-- Number of blink toggles performed over a sequence of ledBlinking calls
at the given timestamps. -/
def toggleCount : DeviceState → List Nat → Nat
  | _, [] => 0
  | s, t :: ts =>
    (if togglesAt t s then 1 else 0) + toggleCount (ledBlinking t s) ts

/-- Call timestamps spaced exactly blinkInterval apart, starting one
interval after `t0`. -/
def exactTicks (t0 : Nat) : Nat → List Nat
  | 0 => []
  | n + 1 => (t0 + blinkInterval) :: exactTicks (t0 + blinkInterval) n

end Chapter11

namespace Ch08TempHumidity

/-- Bounds of Chapter_08/Temp_Humidity_DH11/main.cpp lines 29-32. -/
def TEMP_NORMAL_LOW : ℚ := 15

def TEMP_NORMAL_HIGH : ℚ := 30

def HUM_NORMAL_LOW : ℚ := 10

def HUM_NORMAL_HIGH : ℚ := 80

/-- IEEE comparison `c < x` on a possibly-NaN float: any comparison with
NaN is false. -/
def fgt (x : F) (c : ℚ) : Bool :=
  match x with
  | some v => decide (c < v)
  | none => false

/-- IEEE comparison `x < c` on a possibly-NaN float: any comparison with
NaN is false. -/
def flt (x : F) (c : ℚ) : Bool :=
  match x with
  | some v => decide (v < c)
  | none => false

/-- The three mutually exclusive RGB settings that updateIndicatorStatus
writes (red = high alert, blue = low alert, green = normal). -/
inductive RGBColor : Type
  | red
  | green
  | blue
  deriving DecidableEq, Repr

/-- updateIndicatorStatus, Chapter_08/Temp_Humidity_DH11/main.cpp lines
123-163, together with the beepBuzzerAlert call it ends with: the four
alert booleans come from strict float comparisons (false on NaN), the LED
shows red when any high alert holds, else blue when any low alert holds,
else green; the buzzer sounds exactly when some alert holds.  There is no
NaN check anywhere in this function. -/
def updateIndicatorStatus (humidity temperatureC : F) : RGBColor × Bool :=
  let tempHighAlert := fgt temperatureC TEMP_NORMAL_HIGH
  let humHighAlert := fgt humidity HUM_NORMAL_HIGH
  let tempLowAlert := flt temperatureC TEMP_NORMAL_LOW
  let humLowAlert := flt humidity HUM_NORMAL_LOW
  let color :=
    if tempHighAlert || humHighAlert then RGBColor.red
    else if tempLowAlert || humLowAlert then RGBColor.blue
    else RGBColor.green
  (color, tempHighAlert || humHighAlert || tempLowAlert || humLowAlert)

end Ch08TempHumidity

namespace Chapter14

/-- The ConditionStatus enum of Chapter_14/main.cpp lines 99-105. -/
inductive ConditionStatus : Type
  | Normal
  | BelowNormal
  | AboveNormal
  | Error
  deriving DecidableEq, Repr

/-- The status-string mapping of mqttPublishMessage, Chapter_14/main.cpp
lines 458-474 (the Error and default switch cases share "Error"). -/
def conditionStr : ConditionStatus → String
  | ConditionStatus.Normal => "Normal"
  | ConditionStatus.BelowNormal => "Below Normal"
  | ConditionStatus.AboveNormal => "Above Normal"
  | ConditionStatus.Error => "Error"

/-- TEMP_MIN/TEMP_MAX/HUM_MIN/HUM_MAX of Chapter_14/main.cpp lines 87-90. -/
def TEMP_MIN : ℚ := 10

def TEMP_MAX : ℚ := 25

def HUM_MIN : ℚ := 10

def HUM_MAX : ℚ := 80

/-- MAX_SENSOR_ERROR_RETRIES, Chapter_14/main.cpp line 95. -/
def MAX_SENSOR_ERROR_RETRIES : Nat := 3

/-- MAX_WIFI_CONNECT_ATTEMPTS, Chapter_14/main.cpp line 119. -/
def MAX_WIFI_CONNECT_ATTEMPTS : Nat := 3

/-- WIFI_CONNECT_RETRY_DELAY_MS, Chapter_14/main.cpp line 120. -/
def WIFI_CONNECT_RETRY_DELAY_MS : Nat := 5000

/-- MQTT_RECONNECT_DELAY_MS, Chapter_14/main.cpp line 127. -/
def MQTT_RECONNECT_DELAY_MS : Nat := 3000

/-- The classification if-chain of Chapter_14/main.cpp lines 239-254,
applied to non-NaN humidity and temperature values. -/
def classifyStatus (hv tv : ℚ) : ConditionStatus :=
  if TEMP_MIN ≤ tv ∧ tv ≤ TEMP_MAX ∧ HUM_MIN ≤ hv ∧ hv ≤ HUM_MAX then
    ConditionStatus.Normal
  else if tv < TEMP_MIN ∨ hv < HUM_MIN then
    ConditionStatus.BelowNormal
  else
    ConditionStatus.AboveNormal

/-- The Chapter_14 state relevant to publishing and escalation: the
consecutive-failure counter (line 96) and the module-level
currentCondition (line 107, initialized to Error). -/
structure Ch14State : Type where
  sensorErrorCount : Nat
  currentCondition : ConditionStatus
  deriving DecidableEq, Repr

/-- checkSensorReadings, Chapter_14/main.cpp lines 216-256, restricted to
the counter and currentCondition (the LED/buzzer writes are the Chapter_11
functions modelled above, whose code is identical here).  The validity
test is `isnan(humidity) || isnan(temperatureC) || isnan(temperatureF)`.
On an invalid triple, indicateSensorError runs first: the counter is
incremented and, when it reaches 3, the device restarts (Bool result
true) before `currentCondition = Error` on line 226 is reached.  On a
valid triple the counter is NOT reset anywhere in this file; only
currentCondition is updated from the classification. -/
def checkSensorReadings14 (humidity temperatureC temperatureF : F)
    (s : Ch14State) : Ch14State × Bool :=
  match humidity, temperatureC, temperatureF with
  | some hv, some tv, some _ =>
    ({ s with currentCondition := classifyStatus hv tv }, false)
  | _, _, _ =>
    let c := s.sensorErrorCount + 1
    if MAX_SENSOR_ERROR_RETRIES ≤ c then
      ({ s with sensorErrorCount := c }, true)
    else
      ({ s with
         sensorErrorCount := c
         currentCondition := ConditionStatus.Error }, false)

/-- One sample iteration of loop(), Chapter_14/main.cpp lines 197-208:
checkSensorReadings, then - only when humidity and temperatureC (but not
temperatureF) are non-NaN - mqttPublishMessage, whose status field is
conditionStr of the currentCondition just stored.  Result components:
the new state, whether a restart fired (nothing further runs then), and
the status string of the published message (`none` when no publish
happened). -/
def loopStep (humidity temperatureC temperatureF : F) (s : Ch14State) :
    Ch14State × Bool × Option String :=
  let r := checkSensorReadings14 humidity temperatureC temperatureF s
  if r.2 then (r.1, true, none)
  else if humidity.isSome && temperatureC.isSome then
    (r.1, false, some (conditionStr r.1.currentCondition))
  else
    (r.1, false, none)

/-- A Chapter_14 sample tick result: a valid in-range triple or a failed
read (all three values NaN). -/
def sample14Of (valid : Bool) : F × F × F :=
  if valid then (some 40, some 18, some 64) else (none, none, none)

/-- Run checkSensorReadings14 over a list of sample results; `Sum.inr k`
means the restart fired while processing the k-th result (1-based). -/
def runSamples14 : Ch14State → List Bool → Ch14State ⊕ Nat
  | s, [] => Sum.inl s
  | s, v :: rest =>
    let t := sample14Of v
    let r := checkSensorReadings14 t.1 t.2.1 t.2.2 s
    if r.2 then Sum.inr 1
    else
      match runSamples14 r.1 rest with
      | Sum.inl s2 => Sum.inl s2
      | Sum.inr k => Sum.inr (k + 1)

/-- connectToWiFi, Chapter_14/main.cpp lines 335-380, with the WiFi stack
as an oracle: `status i` is the result (connected or not) of the i-th
`WiFi.status()` call.  The while loop (lines 342-356) evaluates
`WiFi.status() != WL_CONNECTED && attempts < MAX_WIFI_CONNECT_ATTEMPTS`
with `attempts` equal to the poll index, and each iteration performs one
delay(WIFI_CONNECT_RETRY_DELAY_MS) and increments `attempts`; the final
`if (WiFi.status() == WL_CONNECTED)` on line 358 is one further poll.
Result: the number of delayed retry iterations performed, and whether the
failure branch (delay then ESP.restart, lines 376-378) fired. -/
def connectToWiFi (status : Nat → Bool) : Nat × Bool :=
  if status 0 then (0, !status 1)
  else if status 1 then (1, !status 2)
  else if status 2 then (2, !status 3)
  else (3, !status 4)

/-- connectAWS retry loop, Chapter_14/main.cpp lines 437-441:
a while loop on !mqttClient.connect whose body is one
delay(MQTT_RECONNECT_DELAY_MS).
`ok i` is the result of the i-th connect attempt; `i` the index of the
next attempt; the last argument is fuel bounding how far we unroll the
(unbounded) loop.  Returns the index of the first successful attempt -
equal to the number of delay calls made before it - or `none` if no
success occurs within the fuel.  The loop has no attempt bound and no
restart path. -/
def awsConnectLoop (ok : Nat → Bool) : Nat → Nat → Option Nat
  | _, 0 => none
  | i, fuel + 1 => if ok i then some i else awsConnectLoop ok (i + 1) fuel

end Chapter14

/-! Helper lemmas. -/

theorem wrapSub_add (t d : Nat) : wrapSub (t + d) t = d % 2 ^ 32 := by
  unfold wrapSub
  have h2 : t % 2 ^ 32 < 2 ^ 32 := Nat.mod_lt _ (by norm_num)
  have h3 : t + d + (2 ^ 32 - t % 2 ^ 32) = 2 ^ 32 * (t / 2 ^ 32) + (d + 2 ^ 32) := by
    have h4 := Nat.div_add_mod t (2 ^ 32)
    omega
  rw [h3, Nat.mul_add_mod, Nat.add_mod_right]

theorem wrapSub_add_of_lt (t d : Nat) (h : d < 2 ^ 32) : wrapSub (t + d) t = d := by
  rw [wrapSub_add, Nat.mod_eq_of_lt h]

namespace Chapter11

theorem ledBlinking_shouldBlink (now : Nat) (s : DeviceState) :
    (ledBlinking now s).shouldBlink = s.shouldBlink := by
  unfold ledBlinking
  split
  · rfl
  · split
    · rfl
    · rfl

theorem ledBlinking_lastBlinkTime (now : Nat) (s : DeviceState)
    (h : togglesAt now s = true) : (ledBlinking now s).lastBlinkTime = now := by
  simp only [togglesAt, Bool.and_eq_true, decide_eq_true_eq] at h
  unfold ledBlinking
  rw [if_neg (by simp [h.1]), if_pos h.2]

theorem ledBlinking_no_toggle (now : Nat) (s : DeviceState)
    (h : togglesAt now s = false) : ledBlinking now s = s := by
  simp only [togglesAt, Bool.and_eq_false_iff] at h
  unfold ledBlinking
  rcases h with h | h
  · rw [if_pos h]
  · by_cases hb : s.shouldBlink = false
    · rw [if_pos hb]
    · rw [if_neg hb, if_neg (by simpa using h)]

theorem toggleCount_exact (n : Nat) :
    ∀ s : DeviceState, s.shouldBlink = true →
      toggleCount s (exactTicks s.lastBlinkTime n) = n := by
  induction n with
  | zero => intro s _; rfl
  | succ n ih =>
    intro s hs
    have hw : wrapSub (s.lastBlinkTime + blinkInterval) s.lastBlinkTime = blinkInterval :=
      wrapSub_add_of_lt s.lastBlinkTime blinkInterval (by norm_num [blinkInterval])
    have htog : togglesAt (s.lastBlinkTime + blinkInterval) s = true := by
      simp [togglesAt, hs, hw]
    have hsb : (ledBlinking (s.lastBlinkTime + blinkInterval) s).shouldBlink = true := by
      rw [ledBlinking_shouldBlink]; exact hs
    have hlt : (ledBlinking (s.lastBlinkTime + blinkInterval) s).lastBlinkTime =
        s.lastBlinkTime + blinkInterval :=
      ledBlinking_lastBlinkTime _ _ htog
    have ih2 := ih (ledBlinking (s.lastBlinkTime + blinkInterval) s) hsb
    rw [hlt] at ih2
    simp [exactTicks, toggleCount, htog, ih2]
    omega

end Chapter11

/-! Claim theorems. -/

/-- C1 counterexample: the claim asserts that every Reading with
validity flag false classifies as SensorError in the cited code, but in
Chapter_08/Temp_Humidity_DH11 updateIndicatorStatus a reading whose
humidity is NaN (validity false) with temperature 20 falls through every
alert comparison and is indicated as Normal: green LED, buzzer off - no
error indication exists in that function. -/
theorem claim_C1_counterexample :
    Reading.valid { humidity := none, temperatureC := some 20 } = false ∧
    Ch08TempHumidity.updateIndicatorStatus none (some 20) =
      (Ch08TempHumidity.RGBColor.green, false) := by
  exact ⟨rfl, rfl⟩

/-- C1 (amended): in the Chapter_11/12/13/14 classifier every Reading with
validity flag false yields SensorError regardless of the stored values;
in Chapter_08/Temp_Humidity_DH11, however, updateIndicatorStatus has no
sensor-error tag at all: a fully failed read (both values NaN) fails every
threshold comparison and is indicated as Normal (green, buzzer off). -/
theorem claim_C1_amended :
    (∀ (ths : ThresholdSet) (r : Reading), r.valid = false →
      classify ths r = ConditionTag.SensorError) ∧
    Ch08TempHumidity.updateIndicatorStatus none none =
      (Ch08TempHumidity.RGBColor.green, false) := by
  constructor
  · intro ths r h
    rcases r with ⟨hum, t⟩
    cases hum <;> cases t <;> simp [Reading.valid] at h <;> rfl
  · rfl

/-- C1 witness: a Reading with NaN humidity but an ordinary temperature is
invalid and classifies as SensorError. -/
theorem claim_C1_witness :
    Reading.valid { humidity := none, temperatureC := some 42 } = false ∧
    classify chapter11Thresholds { humidity := none, temperatureC := some 42 } =
      ConditionTag.SensorError :=
  ⟨rfl, claim_C1_amended.1 chapter11Thresholds
    { humidity := none, temperatureC := some 42 } rfl⟩

/-- C2: every valid Reading whose monitored values lie on or within their
bounds - boundary values included - classifies as Normal: the in-range
comparisons of the source are all inclusive. -/
theorem claim_C2_thm (ths : ThresholdSet) (hv tv : ℚ)
    (h1 : ths.tempMin ≤ tv) (h2 : tv ≤ ths.tempMax)
    (h3 : ths.humMin ≤ hv) (h4 : hv ≤ ths.humMax) :
    classify ths { humidity := some hv, temperatureC := some tv } =
      ConditionTag.Normal := by
  simp [classify, h1, h2, h3, h4]

/-- C2 witness: temperature exactly at the low bound (10) and humidity
exactly at the high bound (80) of the Chapter_11 thresholds classify as
Normal. -/
theorem claim_C2_witness :
    chapter11Thresholds.tempMin ≤ (10 : ℚ) ∧ (10 : ℚ) ≤ chapter11Thresholds.tempMax ∧
    chapter11Thresholds.humMin ≤ (80 : ℚ) ∧ (80 : ℚ) ≤ chapter11Thresholds.humMax ∧
    classify chapter11Thresholds { humidity := some 80, temperatureC := some 10 } =
      ConditionTag.Normal :=
  ⟨by decide, by decide, by decide, by decide,
    claim_C2_thm chapter11Thresholds 80 10 (by decide) (by decide) (by decide) (by decide)⟩

/-- C3: a valid two-quantity Reading with some monitored value strictly
below its low bound classifies as BelowRange - the below-range branch is
tested before the above-range branch, so this holds even when the other
quantity is above its high bound. -/
theorem claim_C3_thm (ths : ThresholdSet) (hv tv : ℚ)
    (h : tv < ths.tempMin ∨ hv < ths.humMin) :
    classify ths { humidity := some hv, temperatureC := some tv } =
      ConditionTag.BelowRange := by
  have hnot : ¬(ths.tempMin ≤ tv ∧ tv ≤ ths.tempMax ∧ ths.humMin ≤ hv ∧ hv ≤ ths.humMax) := by
    rcases h with h | h
    · exact fun hc => absurd hc.1 (not_le.mpr h)
    · exact fun hc => absurd hc.2.2.1 (not_le.mpr h)
  simp [classify, hnot, h]

/-- C3 witness: temperature 5 is below TEMP_MIN = 10 while humidity 90 is
simultaneously above HUM_MAX = 80, and the Reading classifies as
BelowRange. -/
theorem claim_C3_witness :
    ((5 : ℚ) < chapter11Thresholds.tempMin ∨ (90 : ℚ) < chapter11Thresholds.humMin) ∧
    chapter11Thresholds.humMax < (90 : ℚ) ∧
    classify chapter11Thresholds { humidity := some 90, temperatureC := some 5 } =
      ConditionTag.BelowRange :=
  ⟨Or.inl (by decide), by decide,
    claim_C3_thm chapter11Thresholds 90 5 (Or.inl (by decide))⟩

/-! Further helper lemmas for the remaining claims. -/

namespace Chapter14

theorem classifyStatus_ne_error (hv tv : ℚ) :
    classifyStatus hv tv ≠ ConditionStatus.Error := by
  unfold classifyStatus
  split_ifs <;> simp

theorem conditionStr_error_iff (c : ConditionStatus) :
    conditionStr c = "Error" ↔ c = ConditionStatus.Error := by
  cases c <;> decide

theorem aws_first_success : ∀ (fuel i m : Nat), i ≤ m → m < i + fuel →
    awsConnectLoop (fun j => decide (j = m)) i fuel = some m := by
  intro fuel
  induction fuel with
  | zero =>
    intro i m h1 h2
    exact absurd h2 (by omega)
  | succ fuel ih =>
    intro i m h1 h2
    by_cases he : i = m
    · subst he
      simp [awsConnectLoop]
    · have h3 : decide (i = m) = false := by simp [he]
      simp only [awsConnectLoop, h3, Bool.false_eq_true, if_false]
      exact ih (i + 1) m (by omega) (by omega)

end Chapter14

/-- C4 counterexample: in Chapter_14 a valid sample result does not reset
the failure counter (there is no reset anywhere in that file): from count
2, a valid reading leaves the count at 2; consequently the run
invalid, valid, invalid, valid, invalid - which never contains 3
consecutive failures - fires the restart at its 5th result, on the 3rd
cumulative failure. -/
theorem claim_C4_counterexample :
    (Chapter14.checkSensorReadings14 (some 40) (some 18) (some 64)
      { sensorErrorCount := 2, currentCondition := Chapter14.ConditionStatus.Error
        }).1.sensorErrorCount = 2 ∧
    Chapter14.runSamples14
      { sensorErrorCount := 0, currentCondition := Chapter14.ConditionStatus.Error }
      [false, true, false, true, false] = Sum.inr 5 := by
  exact ⟨rfl, by decide⟩

/-- C4 (amended): starting from a zero counter, exactly 3 consecutive
invalid results fire the restart exactly once, immediately after the third
failure (the run halts there), and fewer than 3 consecutive failures never
fire it.  In Chapter_11 any valid result resets the counter to zero (and
never fires), so a full new run of 3 consecutive failures is required; in
Chapter_14, however, a valid result leaves the counter unchanged, so the
restart fires once 3 failures have accumulated even with intervening valid
results - concretely, on the 5th result of invalid, valid, invalid, valid,
invalid. -/
theorem claim_C4_amended :
    (∀ (s : Chapter11.DeviceState) (rest : List Bool), s.sensorErrorCount = 0 →
      Chapter11.runSamples11 s (false :: false :: false :: rest) = Sum.inr 3) ∧
    (∀ (s : Chapter11.DeviceState) (n : Nat), s.sensorErrorCount = 0 → n < 3 →
      ∃ s2, Chapter11.runSamples11 s (List.replicate n false) = Sum.inl s2 ∧
        s2.sensorErrorCount = n) ∧
    (∀ (ths : ThresholdSet) (r : Reading) (s : Chapter11.DeviceState),
      r.valid = true →
      (Chapter11.checkSensorReadings ths r s).1.sensorErrorCount = 0 ∧
      (Chapter11.checkSensorReadings ths r s).2 = false) ∧
    (∀ (hv tv fv : ℚ) (s : Chapter14.Ch14State),
      (Chapter14.checkSensorReadings14 (some hv) (some tv) (some fv)
        s).1.sensorErrorCount = s.sensorErrorCount) ∧
    Chapter14.runSamples14
      { sensorErrorCount := 0, currentCondition := Chapter14.ConditionStatus.Error }
      [false, true, false, true, false] = Sum.inr 5 := by
  refine ⟨?_, ?_, ?_, ?_, ?_⟩
  · intro s rest h
    simp [Chapter11.runSamples11, Chapter11.checkSensorReadings, Chapter11.sampleOf,
      Chapter11.indicateSensorError, h]
  · intro s n h hn
    interval_cases n <;>
      simp [Chapter11.runSamples11, Chapter11.checkSensorReadings, Chapter11.sampleOf,
        Chapter11.indicateSensorError, List.replicate, h]
  · intro ths r s h
    rcases r with ⟨hum, t⟩
    cases hum <;> cases t <;> simp [Reading.valid] at h
    simp only [Chapter11.checkSensorReadings]
    split_ifs <;>
      simp [Chapter11.indicateNormalCondition, Chapter11.indicateConditionBelowRange,
        Chapter11.indicateConditionAboveRange, Chapter11.updateLEDs]
  · intro hv tv fv s
    rfl
  · decide

/-- C4 witness: from the initial state (counter zero) three consecutive
failures fire the restart exactly at the third result, and a valid reading
taken at counter value 2 resets the Chapter_11 counter to zero. -/
theorem claim_C4_witness :
    Chapter11.initialState.sensorErrorCount = 0 ∧
    Chapter11.runSamples11 Chapter11.initialState [false, false, false] = Sum.inr 3 ∧
    (Chapter11.checkSensorReadings chapter11Thresholds (Chapter11.sampleOf true)
      { Chapter11.initialState with sensorErrorCount := 2 }).1.sensorErrorCount = 0 :=
  ⟨rfl, claim_C4_amended.1 Chapter11.initialState [] rfl,
    (claim_C4_amended.2.2.1 chapter11Thresholds (Chapter11.sampleOf true)
      { Chapter11.initialState with sensorErrorCount := 2 } rfl).1⟩

/-- C5: after render(AboveRange) enables blinking, a sequence of tickBlink
calls spaced exactly blinkInterval apart - each one interval after the
previous toggle - toggles the blink phase exactly once per call; and any
tickBlink call made less than blinkInterval after the previous toggle
performs no toggle and leaves the state unchanged. -/
theorem claim_C5_thm :
    (∀ (s : Chapter11.DeviceState) (n : Nat),
      Chapter11.toggleCount (Chapter11.indicateConditionAboveRange s)
        (Chapter11.exactTicks
          (Chapter11.indicateConditionAboveRange s).lastBlinkTime n) = n) ∧
    (∀ (now : Nat) (s : Chapter11.DeviceState),
      wrapSub now s.lastBlinkTime < Chapter11.blinkInterval →
      Chapter11.togglesAt now s = false ∧ Chapter11.ledBlinking now s = s) := by
  constructor
  · intro s n
    exact Chapter11.toggleCount_exact n (Chapter11.indicateConditionAboveRange s) rfl
  · intro now s h
    have hnot := Nat.not_le.mpr h
    have ht : Chapter11.togglesAt now s = false := by
      simp [Chapter11.togglesAt, hnot]
    exact ⟨ht, Chapter11.ledBlinking_no_toggle now s ht⟩

/-- C5 witness: from a freshly rendered AboveRange state with last toggle
at time 0, three ticks at times 100, 200, 300 toggle three times, while a
tick at time 50 (less than one interval after the last toggle) changes
nothing. -/
theorem claim_C5_witness :
    wrapSub 50 (Chapter11.indicateConditionAboveRange
      Chapter11.initialState).lastBlinkTime < Chapter11.blinkInterval ∧
    Chapter11.ledBlinking 50 (Chapter11.indicateConditionAboveRange Chapter11.initialState) =
      Chapter11.indicateConditionAboveRange Chapter11.initialState ∧
    Chapter11.toggleCount (Chapter11.indicateConditionAboveRange Chapter11.initialState)
      (Chapter11.exactTicks (Chapter11.indicateConditionAboveRange
        Chapter11.initialState).lastBlinkTime 3) = 3 :=
  ⟨by decide,
    (claim_C5_thm.2 50 (Chapter11.indicateConditionAboveRange Chapter11.initialState)
      (by decide)).2,
    claim_C5_thm.1 Chapter11.initialState 3⟩

/-- C6: at every blink toggle, the buzzer is written in lockstep with the
LED phase: after the toggle the buzzer duty is half volume exactly when
the blink phase is on, and zero exactly when the blink phase is off. -/
theorem claim_C6_thm (now : Nat) (s : Chapter11.DeviceState)
    (h : Chapter11.togglesAt now s = true) :
    ((Chapter11.ledBlinking now s).buzzer = Chapter11.BUZZER_VOLUME_HALF ↔
      (Chapter11.ledBlinking now s).ledState = true) ∧
    ((Chapter11.ledBlinking now s).buzzer = Chapter11.BUZZER_OFF ↔
      (Chapter11.ledBlinking now s).ledState = false) := by
  simp only [Chapter11.togglesAt, Bool.and_eq_true, decide_eq_true_eq] at h
  unfold Chapter11.ledBlinking
  rw [if_neg (by simp [h.1]), if_pos h.2]
  cases hls : s.ledState <;>
    simp [hls, Chapter11.BUZZER_VOLUME_HALF, Chapter11.BUZZER_OFF]

/-- C6 witness: the first toggle after render(AboveRange) from the initial
state turns the phase on, and the buzzer is then at half volume. -/
theorem claim_C6_witness :
    Chapter11.togglesAt 100 (Chapter11.indicateConditionAboveRange
      Chapter11.initialState) = true ∧
    ((Chapter11.ledBlinking 100 (Chapter11.indicateConditionAboveRange
        Chapter11.initialState)).buzzer = Chapter11.BUZZER_VOLUME_HALF ↔
      (Chapter11.ledBlinking 100 (Chapter11.indicateConditionAboveRange
        Chapter11.initialState)).ledState = true) :=
  ⟨by decide,
    (claim_C6_thm 100 (Chapter11.indicateConditionAboveRange Chapter11.initialState)
      (by decide)).1⟩

/-- C7 counterexample: immediately after render(AboveRange) from the
initial state, blinking is enabled but the blink phase is off (ledState =
false), not on as the claim states - the render functions never touch the
phase variable. -/
theorem claim_C7_counterexample :
    (Chapter11.indicateConditionAboveRange Chapter11.initialState).shouldBlink = true ∧
    (Chapter11.indicateConditionAboveRange Chapter11.initialState).ledState = false :=
  ⟨rfl, rfl⟩

/-- C7 (amended): render with a blinking tag (BelowRange or AboveRange)
enables blinking and sets the blink target to the LED of that tag, but leaves
the blink phase unchanged rather than forcing it on: the state becomes
Blinking(tag, previous phase).  The phase is initially off, and the first
elapsed-interval tick after render flips it to on. -/
theorem claim_C7_amended :
    (∀ s : Chapter11.DeviceState,
      (Chapter11.indicateConditionAboveRange s).shouldBlink = true ∧
      (Chapter11.indicateConditionAboveRange s).blinkingLED =
        Chapter11.DATA_LED_ABOVE_RED ∧
      (Chapter11.indicateConditionAboveRange s).ledState = s.ledState) ∧
    (∀ s : Chapter11.DeviceState,
      (Chapter11.indicateConditionBelowRange s).shouldBlink = true ∧
      (Chapter11.indicateConditionBelowRange s).blinkingLED =
        Chapter11.DATA_LED_BELOW_BLUE ∧
      (Chapter11.indicateConditionBelowRange s).ledState = s.ledState) ∧
    (Chapter11.ledBlinking Chapter11.blinkInterval
      (Chapter11.indicateConditionAboveRange Chapter11.initialState)).ledState = true := by
  refine ⟨fun s => ⟨rfl, rfl, rfl⟩, fun s => ⟨rfl, rfl, rfl⟩, ?_⟩
  decide

/-- C8: the WiFi connect sequence performs at most
MAX_WIFI_CONNECT_ATTEMPTS = 3 delayed retry iterations however the WiFi
stack behaves, and when every status poll reports not-connected it stops
after exactly 3 attempts and fires the restart; the AWS MQTT connect loop,
by contrast, has no attempt bound: for every n there is a connect oracle
under which it performs exactly n delayed retries before succeeding, and
under an always-failing oracle it never terminates of its own accord (no
fuel suffices) - it has no restart path at all. -/
theorem claim_C8_thm :
    (∀ status : Nat → Bool,
      (Chapter14.connectToWiFi status).1 ≤ Chapter14.MAX_WIFI_CONNECT_ATTEMPTS) ∧
    (∀ status : Nat → Bool, (∀ k, status k = false) →
      Chapter14.connectToWiFi status = (3, true)) ∧
    (∀ n : Nat,
      Chapter14.awsConnectLoop (fun j => decide (j = n)) 0 (n + 1) = some n) ∧
    (∀ (fuel i : Nat), Chapter14.awsConnectLoop (fun _ => false) i fuel = none) := by
  refine ⟨?_, ?_, ?_, ?_⟩
  · intro status
    unfold Chapter14.connectToWiFi
    split_ifs <;> simp [Chapter14.MAX_WIFI_CONNECT_ATTEMPTS]
  · intro status h
    simp [Chapter14.connectToWiFi, h 0, h 1, h 2, h 4]
  · intro n
    exact Chapter14.aws_first_success (n + 1) 0 n (by omega) (by omega)
  · intro fuel
    induction fuel with
    | zero => intro i; rfl
    | succ fuel ih => intro i; simp [Chapter14.awsConnectLoop, ih]

/-- C8 witness: under an always-disconnected WiFi stack the connect
sequence stops after exactly 3 attempts and fires the restart, and an AWS
connect oracle that first succeeds on attempt 5 makes the MQTT loop retry
5 times - beyond the WiFi bound of 3. -/
theorem claim_C8_witness :
    (∀ k : Nat, (fun _ : Nat => false) k = false) ∧
    Chapter14.connectToWiFi (fun _ => false) = (3, true) ∧
    Chapter14.awsConnectLoop (fun j => decide (j = 5)) 0 6 = some 5 :=
  ⟨fun _ => rfl, claim_C8_thm.2.1 (fun _ => false) (fun _ => rfl),
    claim_C8_thm.2.2.1 5⟩

/-- C9 counterexample: when the Fahrenheit read alone returns NaN while
humidity and Celsius temperature are ordinary values (40 and 18), the
publish guard of loop() still passes, checkSensorReadings has just set
currentCondition to Error, and the published message carries status
"Error" - contradicting the claim that "Error" is never published. -/
theorem claim_C9_counterexample :
    Chapter14.loopStep (some 40) (some 18) none
      { sensorErrorCount := 0, currentCondition := Chapter14.ConditionStatus.Normal } =
      ({ sensorErrorCount := 1, currentCondition := Chapter14.ConditionStatus.Error },
        false, some "Error") := by
  decide

/-- C9 (amended): whenever the Fahrenheit reading is non-NaN, every
message published from the main loop carries a status among "Normal",
"Below Normal" and "Above Normal", never "Error"; publishing is skipped
whenever humidity or the Celsius temperature is NaN; and a fully valid
triple publishes the classification of the current sample, which is never
the Error status.  Only a NaN Fahrenheit reading combined with non-NaN
humidity and Celsius values makes the loop publish status "Error". -/
theorem claim_C9_amended :
    (∀ (h t : F) (fv : ℚ) (s : Chapter14.Ch14State),
      (Chapter14.loopStep h t (some fv) s).2.2 ≠ some "Error") ∧
    (∀ (h t f : F) (s : Chapter14.Ch14State), h = none ∨ t = none →
      (Chapter14.loopStep h t f s).2.2 = none) ∧
    (∀ (hv tv fv : ℚ) (s : Chapter14.Ch14State),
      (Chapter14.loopStep (some hv) (some tv) (some fv) s).2.2 =
        some (Chapter14.conditionStr (Chapter14.classifyStatus hv tv)) ∧
      Chapter14.classifyStatus hv tv ≠ Chapter14.ConditionStatus.Error) := by
  refine ⟨?_, ?_, ?_⟩
  · intro h t fv s
    cases h with
    | none =>
      simp only [Chapter14.loopStep, Chapter14.checkSensorReadings14]
      split_ifs <;> simp_all
    | some hv =>
      cases t with
      | none =>
        simp only [Chapter14.loopStep, Chapter14.checkSensorReadings14]
        split_ifs <;> simp_all
      | some tv =>
        intro hcontra
        simp only [Chapter14.loopStep, Chapter14.checkSensorReadings14] at hcontra
        simp at hcontra
        rw [Chapter14.conditionStr_error_iff] at hcontra
        exact Chapter14.classifyStatus_ne_error hv tv hcontra
  · intro h t f s hor
    rcases hor with rfl | rfl
    · cases t <;> cases f <;>
        · simp only [Chapter14.loopStep, Chapter14.checkSensorReadings14]
          split_ifs <;> simp_all
    · cases h <;> cases f <;>
        · simp only [Chapter14.loopStep, Chapter14.checkSensorReadings14]
          split_ifs <;> simp_all
  · intro hv tv fv s
    exact ⟨by simp [Chapter14.loopStep, Chapter14.checkSensorReadings14],
      Chapter14.classifyStatus_ne_error hv tv⟩

/-- C9 witness: a fully valid sample (humidity 40, 18 C, 64 F) publishes a
status different from "Error", and a sample with NaN Celsius temperature
publishes nothing. -/
theorem claim_C9_witness :
    (Chapter14.loopStep (some 40) (some 18) (some 64)
      { sensorErrorCount := 0, currentCondition := Chapter14.ConditionStatus.Error
        }).2.2 ≠ some "Error" ∧
    ((some (40 : ℚ) : F) = none ∨ (none : F) = none) ∧
    (Chapter14.loopStep (some 40) none (some 64)
      { sensorErrorCount := 0, currentCondition := Chapter14.ConditionStatus.Error
        }).2.2 = none :=
  ⟨claim_C9_amended.1 (some 40) (some 18) 64
      { sensorErrorCount := 0, currentCondition := Chapter14.ConditionStatus.Error },
    Or.inr rfl,
    claim_C9_amended.2.1 (some 40) none (some 64)
      { sensorErrorCount := 0, currentCondition := Chapter14.ConditionStatus.Error }
      (Or.inr rfl)⟩

/-- C10: rendering a blinking condition writes neither the RGB data pins
nor the buzzer channel and leaves the blink phase, blink timer and failure
counter alone: it changes only the blink-enable flag, the blink-target LED
and system LED D5.  In particular the half-volume error tone set by a
preceding SensorError indication is still sounding right after
render(BelowRange). -/
theorem claim_C10_thm :
    (∀ s : Chapter11.DeviceState,
      (Chapter11.indicateConditionBelowRange s).red = s.red ∧
      (Chapter11.indicateConditionBelowRange s).green = s.green ∧
      (Chapter11.indicateConditionBelowRange s).blue = s.blue ∧
      (Chapter11.indicateConditionBelowRange s).buzzer = s.buzzer ∧
      (Chapter11.indicateConditionBelowRange s).ledState = s.ledState ∧
      (Chapter11.indicateConditionBelowRange s).lastBlinkTime = s.lastBlinkTime ∧
      (Chapter11.indicateConditionBelowRange s).sensorErrorCount = s.sensorErrorCount ∧
      (Chapter11.indicateConditionBelowRange s).shouldBlink = true ∧
      (Chapter11.indicateConditionBelowRange s).blinkingLED =
        Chapter11.DATA_LED_BELOW_BLUE ∧
      (Chapter11.indicateConditionBelowRange s).sysLedD5 = Chapter11.SYS_LED_OFF) ∧
    (∀ s : Chapter11.DeviceState,
      (Chapter11.indicateConditionAboveRange s).red = s.red ∧
      (Chapter11.indicateConditionAboveRange s).green = s.green ∧
      (Chapter11.indicateConditionAboveRange s).blue = s.blue ∧
      (Chapter11.indicateConditionAboveRange s).buzzer = s.buzzer ∧
      (Chapter11.indicateConditionAboveRange s).ledState = s.ledState ∧
      (Chapter11.indicateConditionAboveRange s).lastBlinkTime = s.lastBlinkTime ∧
      (Chapter11.indicateConditionAboveRange s).sensorErrorCount = s.sensorErrorCount ∧
      (Chapter11.indicateConditionAboveRange s).shouldBlink = true ∧
      (Chapter11.indicateConditionAboveRange s).blinkingLED =
        Chapter11.DATA_LED_ABOVE_RED ∧
      (Chapter11.indicateConditionAboveRange s).sysLedD5 = Chapter11.SYS_LED_OFF) ∧
    (Chapter11.indicateSensorError Chapter11.initialState).1.buzzer =
      Chapter11.BUZZER_VOLUME_HALF ∧
    (Chapter11.indicateConditionBelowRange
      (Chapter11.indicateSensorError Chapter11.initialState).1).buzzer =
      Chapter11.BUZZER_VOLUME_HALF := by
  refine ⟨fun s => ⟨rfl, rfl, rfl, rfl, rfl, rfl, rfl, rfl, rfl, rfl⟩,
    fun s => ⟨rfl, rfl, rfl, rfl, rfl, rfl, rfl, rfl, rfl, rfl⟩, ?_, ?_⟩
  · decide
  · decide
